import Mathlib

/-!
Shallow embedding of the vncd reverse proxy (github.com/kramergroup/vncd).

Each definition below embeds one function or code fragment of the Go
source; the file and line numbers of the embedded code are given in the
doc comments.  Byte values are modelled as `Nat`, byte buffers as
`List Nat`, Go maps used as sets or association containers as Lean lists,
and the outcomes of external calls (Kubernetes API updates, Docker engine
calls, socket reads and writes) as explicit oracle parameters, so that
every definition is executable.
-/

namespace Vncd

/- ------------------------------------------------------------------ -/
/- Kubernetes backend (backends/KubernetesBackend.go)                  -/
/- ------------------------------------------------------------------ -/

/-- The reserved pod-lock annotation key
(backends/KubernetesBackend.go line 15). -/
def podAnnotationLock : String := "kramergroup.science.vncd.lock"

/-- A Kubernetes pod as seen by `CreateKubernetesBackend`: its name, its
namespace and its annotation map (modelled as an association list). -/
structure Pod where
  name : String
  nameSpace : String
  annotations : List (String × String)
deriving DecidableEq

/-- Whether a pod's annotations already contain the pod-lock key
(the `if _, ok := pod.Annotations[podAnnotationLock]; ok` test,
backends/KubernetesBackend.go line 43). -/
def podLocked (p : Pod) : Bool :=
  (p.annotations.lookup podAnnotationLock).isSome

/-- `pod.Annotations[podAnnotationLock] = "yes"`
(backends/KubernetesBackend.go line 47): set the lock key in the
annotation map. -/
def lockPod (p : Pod) : Pod :=
  { p with annotations :=
      (podAnnotationLock, "yes") :: p.annotations.filter (fun kv => kv.1 != podAnnotationLock) }

/-- Result of `CreateKubernetesBackend`: a backend bound to a pod, an
error from the lock update (`Error locking pod ...`,
backends/KubernetesBackend.go line 50), or the no-pod-available error
(`No available pod in namespace ...`, line 60). -/
inductive KResult where
  | backend (podName nameSpace : String) (containerPort : Nat)
  | lockError (podName nameSpace : String)
  | noPod (nameSpace : String)
deriving DecidableEq

/-- Embedding of the pod scan of `CreateKubernetesBackend`
(backends/KubernetesBackend.go lines 42-60).  The pod list returned by
the List call is the argument; `update` is the oracle for
`clientset.CoreV1().Pods(namespace).Update(&pod)`, returning `true` when
the update is accepted and `false` when it is rejected (version conflict
or any other error).  The Go loop skips pods that already carry the lock
annotation; at the first unlocked pod it sets the annotation and submits
the update, returning an error immediately when the update is rejected
(line 50) and the backend when it is accepted (lines 52-57); the no-pod
error is returned only when the loop exhausts the list (line 60). -/
def createKubernetesBackend (update : Pod → Bool) (nameSpace : String)
    (containerPort : Nat) : List Pod → KResult
  | [] => .noPod nameSpace
  | pod :: rest =>
    if podLocked pod then
      createKubernetesBackend update nameSpace containerPort rest
    else
      if update (lockPod pod) then
        .backend pod.name pod.nameSpace containerPort
      else
        .lockError pod.name pod.nameSpace

/-- Modelled from the spec (section 4.4, step 3, the behaviour claim C1
asserts of the scan): an update rejected for version conflict is treated
as "already claimed" and the scan moves on to the next pod, so the
no-pod error is produced only after the full scan fails.  This is the
refinement target the code is compared against; it is not code of the
repository. -/
def claimedConflictScan (update : Pod → Bool) (nameSpace : String)
    (containerPort : Nat) : List Pod → KResult
  | [] => .noPod nameSpace
  | pod :: rest =>
    if podLocked pod then
      claimedConflictScan update nameSpace containerPort rest
    else
      if update (lockPod pod) then
        .backend pod.name pod.nameSpace containerPort
      else
        claimedConflictScan update nameSpace containerPort rest

/- ------------------------------------------------------------------ -/
/- Pipe engine (cmd/main.go, handleConn, lines 322-388)                -/
/- ------------------------------------------------------------------ -/

/-- Size of the fixed read buffer of each pipe direction:
`buff := make([]byte, 65535)` (cmd/main.go line 331; the older variant
at unnamed/part_006 line 192 allocates the same size). -/
def pipeBufferSize : Nat := 65535

/-- The read deadline set before each read:
`src.SetReadDeadline(time.Now().Add(10 * time.Second))`
(cmd/main.go line 350), in seconds. -/
def readDeadlineSeconds : Nat := 10

/-- One iteration of a pipe direction as seen by `copyPayload`
(cmd/main.go lines 349-368): the read times out, the read fails with a
non-timeout error (EOF included), or the read delivers a chunk which is
then written to the peer with the given write outcome. -/
inductive PipeEv where
  | timeout
  | readErr
  | chunk (data : List Nat) (writeOk : Bool)
deriving DecidableEq

/-- `if filter != nil { filter(&b) }` (cmd/main.go lines 362-364): the
director filter is applied to the chunk when configured, otherwise the
chunk passes unchanged. -/
def applyFilter (filter : Option (List Nat → List Nat)) (b : List Nat) : List Nat :=
  match filter with
  | some f => f b
  | none => b

/-- The sequence of chunks a pipe direction writes to its destination,
as a function of the direction's filter and its trace of read/write
events (cmd/main.go lines 349-382): a timed-out read continues the loop
writing nothing, a failed read stops the loop, and a delivered chunk is
filtered and written — the loop continues only when the write
succeeds. -/
def pipeWrites (filter : Option (List Nat → List Nat)) : List PipeEv → List (List Nat)
  | [] => []
  | PipeEv.timeout :: rest => pipeWrites filter rest
  | PipeEv.readErr :: _ => []
  | PipeEv.chunk c wOk :: rest =>
    applyFilter filter c :: (if wOk then pipeWrites filter rest else [])

/-- Whether a trace of read/write events makes the pipe direction run
its teardown (`cleanup`): `cp <- nil` on timeout keeps the loop going,
while a non-timeout read error or a write error makes the loop call
`cleanup` and return (cmd/main.go lines 351-359 and 366-367 together
with the loop at lines 369-382). -/
def pipeTeardown : List PipeEv → Bool
  | [] => false
  | PipeEv.timeout :: rest => pipeTeardown rest
  | PipeEv.readErr :: _ => true
  | PipeEv.chunk _ wOk :: rest => if wOk then pipeTeardown rest else true

/-- Whether a single event is fatal for the pipe loop: a non-timeout
read error always is, a delivered chunk is fatal exactly when its write
fails, and a timeout never is. -/
def pipeEvFatal : PipeEv → Bool
  | PipeEv.timeout => false
  | PipeEv.readErr => true
  | PipeEv.chunk _ wOk => !wOk

/-- A trace in which every read delivers a chunk and every write
succeeds. -/
def chunkTrace (chunks : List (List Nat)) : List PipeEv :=
  chunks.map (fun c => PipeEv.chunk c true)

/-- The filter arguments handleConn passes to its two pipe directions:
`go pipe(conn, rconn, p.Director)` for client-to-backend and
`go pipe(rconn, conn, nil)` for backend-to-client
(cmd/main.go lines 386-387). -/
def handleConnPipeFilters (director : Option (List Nat → List Nat)) :
    Option (List Nat → List Nat) × Option (List Nat → List Nat) :=
  (director, none)

/-- The state touched by the pipe teardown closure: the `pipeDone` flag,
the number of `conn.Close`, `rconn.Close` and `backend.Terminate` calls
the closure has issued, whether the pipe's channel is still registered
in the server's sig set, and the number of false-to-true transitions of
the done flag. -/
structure PipeTeardownState where
  pipeDone : Bool
  connCloses : Nat
  rconnCloses : Nat
  terminateCalls : Nat
  registered : Bool
  doneTransitions : Nat
deriving DecidableEq

/-- Pipe state at the moment the pipes are launched: `pipeDone = false`
(cmd/main.go line 324) and the pipe's channel registered in `p.sigs`
(line 326), with no teardown side effect issued yet. -/
def pipeInit : PipeTeardownState :=
  ⟨false, 0, 0, 0, true, 0⟩

/-- The terminal pipe state after a completed teardown: done, both
connections closed once, backend terminated once, deregistered, and the
done flag having flipped exactly once. -/
def pipeDoneState : PipeTeardownState :=
  ⟨true, 1, 1, 1, false, 1⟩

/-- The `cleanup` closure of handleConn (cmd/main.go lines 334-346):
under the pipe mutex, if the pipe is not yet done it closes the client
connection, closes the backend connection, calls `backend.Terminate()`,
deletes the pipe's channel from `p.sigs` and sets `pipeDone`; otherwise
it does nothing.  The mutex serializes concurrent invocations, so a
concurrent execution is an arbitrary finite sequence of applications of
this function. -/
def cleanup (s : PipeTeardownState) : PipeTeardownState :=
  if s.pipeDone then s
  else
    ⟨true, s.connCloses + 1, s.rconnCloses + 1, s.terminateCalls + 1,
      false, s.doneTransitions + 1⟩

/- ------------------------------------------------------------------ -/
/- Docker backend, mutex variant (unnamed/part_000, lines 174-332)     -/
/- ------------------------------------------------------------------ -/

/-- The state touched by `DockerBackend.Terminate` in the mutex variant:
whether `termMux` is held, the `containerRunning` flag, and the number
of `ContainerStop` calls issued. -/
structure DockerTermState where
  mutexHeld : Bool
  containerRunning : Bool
  stopCalls : Nat
deriving DecidableEq

/-- `DockerBackend.Terminate` of the mutex variant (unnamed/part_000
lines 198-219), modelled for a call that finds the mutex free (a call
finding it held blocks forever and reaches none of the code below).  The
call takes `termMux`; when `containerRunning` is false it returns at
once — without releasing the mutex (line 203).  Otherwise it issues
`ContainerStop` (outcome given by the `stopFails` oracle), sets
`containerRunning = (err != nil)` (line 216) and releases the mutex
(line 217). -/
def dockerTerminate (stopFails : Bool) (s : DockerTermState) : DockerTermState :=
  let locked : DockerTermState := { s with mutexHeld := true }
  if !locked.containerRunning then
    locked
  else
    { mutexHeld := false, containerRunning := stopFails,
      stopCalls := locked.stopCalls + 1 }

/-- Outcome of one `ContainerCreate` call: a container id, or a
failure. -/
inductive CreateRes where
  | ok (id : String)
  | fail
deriving DecidableEq

/-- What `CreateDockerBackend` leaves behind: whether it returned an
error, the recorded `containerID`, the `containerRunning` flag, and
whether `ContainerStart` was invoked and succeeded. -/
structure DockerCreateResult where
  isErr : Bool
  containerID : String
  containerRunning : Bool
  started : Bool
deriving DecidableEq

/-- The create/pull/retry/start phase of `CreateDockerBackend` in the
mutex variant (unnamed/part_000 lines 290-304).  `create1` is the
outcome of the first `ContainerCreate`, `pullOk` that of `pullImage`,
`create2` that of the retried `ContainerCreate`, and `startOk` that of
`ContainerStart`.  On a first-create failure the code pulls the image
and retries the create once, then returns `(b, err)` immediately
(line 296): on this path it never records the container id, never calls
`ContainerStart` and never sets `containerRunning`.  On a first-create
success it records the id (line 298), starts the container (line 300)
and sets `containerRunning = true` (line 303). -/
def createDockerBackend (create1 : CreateRes) (pullOk : Bool)
    (create2 : CreateRes) (startOk : Bool) : DockerCreateResult :=
  match create1 with
  | CreateRes.fail =>
    if !pullOk then ⟨true, "", false, false⟩
    else
      match create2 with
      | CreateRes.fail => ⟨true, "", false, false⟩
      | CreateRes.ok _ => ⟨false, "", false, false⟩
  | CreateRes.ok id =>
    if !startOk then ⟨true, id, false, false⟩
    else ⟨false, id, true, true⟩

/- ------------------------------------------------------------------ -/
/- TCP server accept/shutdown loop (cmd/main.go, serve, lines 183-236) -/
/- ------------------------------------------------------------------ -/

/-- One event observed by the select of the serve loop: an accepted
connection, a failed accept, or the arrival of a shutdown signal
(SIGINT/SIGTERM). -/
inductive ServeEv where
  | connOk (id : Nat)
  | connErr
  | sig
deriving DecidableEq

/-- One externally visible action of the serve loop: handing a
connection to `handleConn`, sending the signal to a registered pipe
channel, the bounded wait for the sig set to drain, a write of the
`accepting` flag, or closing the listener on return. -/
inductive ServeAct where
  | handle (id : Nat)
  | send (ch : Nat)
  | drainWait (seconds : Nat)
  | setAccepting (b : Bool)
  | stopListen
deriving DecidableEq

/-- The body of the serve loop (cmd/main.go lines 194-235) as the action
trace it produces on a finite event sequence.  `sigs` is the membership
of `p.sigs` when the signal arrives and `drainTime` the time, in
seconds, after which the sig set becomes empty.  An accepted connection
is handed to `handleConn` (line 211); a failed accept logs and continues
(lines 207-210); on a signal the loop sends the signal to every channel
in the sig set (lines 213-215), waits for the drain or for the 60-second
timer, whichever is first (lines 218-231), and returns — at which point
the deferred writes run: `p.accepting = false` (lines 190-192) and then
`ln.Close()` (line 184). -/
def serveLoop (sigs : List Nat) (drainTime : Nat) : List ServeEv → List ServeAct
  | [] => []
  | ServeEv.connOk c :: rest => ServeAct.handle c :: serveLoop sigs drainTime rest
  | ServeEv.connErr :: rest => serveLoop sigs drainTime rest
  | ServeEv.sig :: _ =>
    sigs.map ServeAct.send ++
      [ServeAct.drainWait (min drainTime 60), ServeAct.setAccepting false,
        ServeAct.stopListen]

/-- The full action trace of `serve`: `p.accepting = true` before the
loop (cmd/main.go line 189), then the loop. -/
def serveTrace (sigs : List Nat) (drainTime : Nat) (evs : List ServeEv) : List ServeAct :=
  ServeAct.setAccepting true :: serveLoop sigs drainTime evs

/-- Modelled from the spec (section 4.6 and claim C7's reading): on the
shutdown signal the server first sets the accepting flag to false, then
broadcasts the signal to every channel of the sig set, then waits at
most 60 seconds, then returns.  This is the ordering the claim asserts;
it is not code of the repository. -/
def claimedShutdownTrace (sigs : List Nat) (drainTime : Nat) : List ServeAct :=
  ServeAct.setAccepting false :: sigs.map ServeAct.send ++
    [ServeAct.drainWait (min drainTime 60), ServeAct.stopListen]

/-- The ids of the successfully accepted connections in an event
sequence, in order. -/
def connOkIds : List ServeEv → List Nat
  | [] => []
  | ServeEv.connOk c :: rest => c :: connOkIds rest
  | ServeEv.connErr :: rest => connOkIds rest
  | ServeEv.sig :: rest => connOkIds rest

/- ------------------------------------------------------------------ -/
/- WebSocket server (websocket.go fragment, copyWorker lines 209-219)  -/
/- ------------------------------------------------------------------ -/

/-- `copyWorker` (websocket server, lines 209-219) runs
`io.Copy(dst, src)` in an unconditional `for` loop, breaking — and only
then signalling `doneCh` — when a copy returns a non-nil error.  The
argument is the trace of copy outcomes (`true` = the copy returned an
error, `false` = it returned nil after a clean end of stream); the
result says whether `doneCh` is signalled within the trace. -/
def copyWorkerSignalsDone : List Bool → Bool
  | [] => false
  | true :: _ => true
  | false :: rest => copyWorkerSignalsDone rest

/-- The number of `io.Copy` invocations `copyWorker` performs on a trace
of copy outcomes: every nil-returning copy is followed by another
invocation of `io.Copy`. -/
def copyWorkerCopyCalls : List Bool → Nat
  | [] => 0
  | true :: _ => 1
  | false :: rest => 1 + copyWorkerCopyCalls rest

/- ------------------------------------------------------------------ -/
/- Server constructor (cmd/main.go, NewServer, lines 130-144)          -/
/- ------------------------------------------------------------------ -/

/-- The fields of `Server` that `NewServer` initializes: the director,
the TLS client config, the backend factory (each nil-able, modelled as
`Option`), and the sig set (`none` models a nil Go map; `NewServer`
allocates it with `make`, giving `some []`). -/
structure ServerInit (α β γ : Type) where
  director : Option α
  config : Option β
  backendFactory : Option γ
  sigs : Option (List Nat)
deriving DecidableEq

/-- `NewServer` (cmd/main.go lines 130-144): build the server with the
given director, config and factory and a freshly made empty sig set,
then return it together with a non-nil error exactly when the factory is
nil (`Backend factory method must not be nil`, line 141); the server
value is returned in every case. -/
def newServer {α β γ : Type} (dir : Option α) (factory : Option γ)
    (config : Option β) : ServerInit α β γ × Option String :=
  let p : ServerInit α β γ := ⟨dir, config, factory, some []⟩
  (p, if factory.isNone then some "Backend factory method must not be nil" else none)

end Vncd

namespace Vncd

/-- The completed-teardown state is a fixed point of `cleanup`. -/
theorem cleanup_fixed (m : Nat) : cleanup^[m] pipeDoneState = pipeDoneState := by
  induction m with
  | zero => rfl
  | succ k ih => rw [Function.iterate_succ_apply, show cleanup pipeDoneState = pipeDoneState from rfl, ih]

/-- Claim C2: however many times the serialized teardown closure runs
(once per exiting direction, per observed shutdown signal, or via the
deferred call — any positive number of invocations), the teardown body
executes exactly once: both connections are closed once, the backend is
terminated exactly once, the pipe's channel is deregistered, and the
done flag transitions from false to true exactly once. -/
theorem c2_single_teardown (n : Nat) (h : 1 ≤ n) :
    cleanup^[n] pipeInit = pipeDoneState := by
  obtain ⟨m, rfl⟩ : ∃ m, n = m + 1 := ⟨n - 1, by omega⟩
  rw [Function.iterate_succ_apply, show cleanup pipeInit = pipeDoneState from rfl]
  exact cleanup_fixed m

/-- Witness for claim C2 at two invocations of the teardown closure. -/
theorem c2_single_teardown_witness :
    1 ≤ 2 ∧ cleanup^[2] pipeInit = pipeDoneState :=
  ⟨by decide, c2_single_teardown 2 (by decide)⟩

/-- Claim C3: with a director filter configured, the client-to-backend
direction writes `filter(chunk_i)` for each chunk read, in order; the
backend-to-client direction gets a nil filter and always relays chunks
unmodified; and with no director configured both directions relay every
chunk byte-for-byte in order. -/
theorem c3_filter_fidelity (f : List Nat → List Nat)
    (d : Option (List Nat → List Nat)) (chunks : List (List Nat)) :
    pipeWrites (handleConnPipeFilters (some f)).1 (chunkTrace chunks) = chunks.map f
    ∧ (handleConnPipeFilters d).2 = none
    ∧ pipeWrites (handleConnPipeFilters d).2 (chunkTrace chunks) = chunks
    ∧ pipeWrites (handleConnPipeFilters none).1 (chunkTrace chunks) = chunks := by
  refine ⟨?_, rfl, ?_, ?_⟩ <;>
    · induction chunks with
      | nil => rfl
      | cons c rest ih => simp [chunkTrace, pipeWrites, applyFilter, handleConnPipeFilters] at ih ⊢
                          exact ih

/-- Claim C4: a pipe direction tears down exactly when its trace holds a
fatal event — a non-timeout read error (EOF included) or a failed write;
a timed-out read is never fatal, so a trace of timeouts alone (an idle
pipe) never triggers teardown; and the deadline set before each read is
10 seconds. -/
theorem c4_timeout_heartbeat (evs : List PipeEv) (n : Nat) :
    pipeTeardown evs = evs.any pipeEvFatal
    ∧ pipeTeardown (List.replicate n PipeEv.timeout) = false
    ∧ readDeadlineSeconds = 10 := by
  refine ⟨?_, ?_, rfl⟩
  · induction evs with
    | nil => rfl
    | cons e rest ih =>
      cases e with
      | timeout => simpa [pipeTeardown, pipeEvFatal] using ih
      | readErr => simp [pipeTeardown, pipeEvFatal]
      | chunk c wOk => cases wOk <;> simp [pipeTeardown, pipeEvFatal, ih]
  · induction n with
    | zero => rfl
    | succ m ih => simpa [List.replicate_succ, pipeTeardown] using ih

/-- Claim C9 counterexample: the fixed read buffer of the main pipe
variant does not hold 65536 bytes. -/
theorem c9_buffer_counterexample : pipeBufferSize ≠ 65536 := by decide

/-- Claim C9 (amended): the fixed read buffer used by each pipe
direction in the main TCP variant holds exactly 65535 bytes
(one byte short of 64 KiB). -/
theorem c9_buffer_amended : pipeBufferSize = 65535 := rfl

/-- Claim C1 counterexample: with two unlocked pods and an update oracle
that rejects every update (as a version conflict would), the factory
returns a lock error for the first pod instead of moving on: it does not
scan the second pod and does not reach the no-pod case, contradicting
the claim that a rejected update is treated as "already claimed" and the
scan moves on. -/
theorem c1_conflict_counterexample :
    createKubernetesBackend (fun _ => false) "ns" 5900
        [⟨"a", "ns", []⟩, ⟨"b", "ns", []⟩] = KResult.lockError "a" "ns"
    ∧ claimedConflictScan (fun _ => false) "ns" 5900
        [⟨"a", "ns", []⟩, ⟨"b", "ns", []⟩] = KResult.noPod "ns"
    ∧ KResult.lockError "a" "ns" ≠ KResult.noPod "ns" := by
  refine ⟨rfl, rfl, by decide⟩

/-- Claim C1 (amended): pods are scanned in list order and pods already
carrying the pod-lock annotation are skipped; at the first pod without
the lock the factory submits the locking update and either returns a
backend bound to that pod (update accepted) or returns a lock error
immediately (update rejected, version conflicts included) without
scanning further; the no-pod-available error is returned exactly when
every pod in the list is already locked. -/
theorem c1_scan_amended (update : Pod → Bool) (ns : String) (port : Nat)
    (pods : List Pod) :
    createKubernetesBackend update ns port pods =
      (match pods.find? (fun p => !podLocked p) with
       | none => KResult.noPod ns
       | some p =>
         if update (lockPod p) then KResult.backend p.name p.nameSpace port
         else KResult.lockError p.name p.nameSpace) := by
  induction pods with
  | nil => rfl
  | cons pod rest ih =>
    by_cases h : podLocked pod
    · simp [createKubernetesBackend, List.find?, h, ih]
    · simp [createKubernetesBackend, List.find?, h]

/-- Claim C5, evaluated at the failing input: starting from a running
container with the mutex free, a first `Terminate` (stop succeeding)
issues one stop and releases the mutex; a second `Terminate` finds
`containerRunning` false, issues no further stop and raises no error —
but returns with the mutex still held, so the mutex is not released
symmetrically on the not-running path. -/
theorem c5_terminate_mutex_leak :
    (dockerTerminate false ⟨false, true, 0⟩ = ⟨false, false, 1⟩)
    ∧ (dockerTerminate false (dockerTerminate false ⟨false, true, 0⟩)).stopCalls = 1
    ∧ (dockerTerminate false (dockerTerminate false ⟨false, true, 0⟩)).mutexHeld = true := by
  refine ⟨rfl, rfl, rfl⟩

/-- Claim C6, evaluated at the failing input: when the first create
fails, the pull succeeds and the retried create succeeds,
`CreateDockerBackend` returns without an error, yet the container has
not been started, the running flag is false and no container id was
recorded — contradicting the claim that every successful construction
has started the container, set the flag and recorded the id. -/
theorem c6_retry_skips_start :
    createDockerBackend CreateRes.fail true (CreateRes.ok "c2") true =
      ⟨false, "", false, false⟩
    ∧ createDockerBackend (CreateRes.ok "c1") true (CreateRes.ok "c2") true =
      ⟨false, "c1", true, true⟩ := by
  refine ⟨rfl, rfl⟩

/-- Claim C7 counterexample: on a lone shutdown signal with one
registered pipe channel, the serve loop's action order is broadcast,
drain wait, and only then — on return, via the deferred write — the
accepting flag set to false; the order the claim asserts puts the
accepting-flag write before the broadcast, and the two traces differ. -/
theorem c7_shutdown_counterexample :
    serveLoop [5] 100 [ServeEv.sig] =
      [ServeAct.send 5, ServeAct.drainWait 60, ServeAct.setAccepting false,
        ServeAct.stopListen]
    ∧ claimedShutdownTrace [5] 100 =
      [ServeAct.setAccepting false, ServeAct.send 5, ServeAct.drainWait 60,
        ServeAct.stopListen]
    ∧ serveLoop [5] 100 [ServeEv.sig] ≠ claimedShutdownTrace [5] 100 := by
  refine ⟨rfl, rfl, by decide⟩

/-- Claim C7 (amended): on receiving SIGINT or SIGTERM the serve loop
broadcasts the signal to every channel in the sig set, waits at most
60 seconds for the sig set to become empty, and then returns, setting
the accepting flag to false as it returns (after the drain wait, not
before the broadcast); after the signal arrives no further incoming
connection is handed to a new connection handler — the actions after the
broadcast contain no handler handoff. -/
theorem c7_shutdown_amended (sigs : List Nat) (d : Nat)
    (pre post : List ServeEv) (h : ServeEv.sig ∉ pre) :
    serveLoop sigs d (pre ++ ServeEv.sig :: post) =
      (connOkIds pre).map ServeAct.handle ++ sigs.map ServeAct.send ++
        [ServeAct.drainWait (min d 60), ServeAct.setAccepting false,
          ServeAct.stopListen]
    ∧ min d 60 ≤ 60 := by
  refine ⟨?_, Nat.min_le_right d 60⟩
  induction pre with
  | nil => simp [serveLoop, connOkIds]
  | cons e rest ih =>
    have hrest : ServeEv.sig ∉ rest := fun hm => h (List.mem_cons_of_mem e hm)
    cases e with
    | connOk c => simp [serveLoop, connOkIds, ih hrest]
    | connErr => simp [serveLoop, connOkIds, ih hrest]
    | sig => exact absurd (List.mem_cons_self _ _) h

/-- Witness for claim C7 (amended) at a concrete event sequence with one
accepted connection before the signal and one after it. -/
theorem c7_shutdown_amended_witness :
    ServeEv.sig ∉ [ServeEv.connOk 1, ServeEv.connErr] ∧
    (serveLoop [5, 7] 100
        ([ServeEv.connOk 1, ServeEv.connErr] ++ ServeEv.sig :: [ServeEv.connOk 2]) =
      (connOkIds [ServeEv.connOk 1, ServeEv.connErr]).map ServeAct.handle ++
        [5, 7].map ServeAct.send ++
        [ServeAct.drainWait (min 100 60), ServeAct.setAccepting false,
          ServeAct.stopListen]
    ∧ min 100 60 ≤ 60) :=
  ⟨by decide,
    c7_shutdown_amended [5, 7] 100 [ServeEv.connOk 1, ServeEv.connErr]
      [ServeEv.connOk 2] (by decide)⟩

/-- Claim C8, evaluated at the failing input: a relay direction whose
`io.Copy` returns nil after a clean end of stream does not signal
`doneCh` — teardown is not triggered — and a direction may invoke
`io.Copy` three times before an error finally ends its loop, so a
direction does not perform a single copy of the stream. -/
theorem c8_copyworker_loops :
    copyWorkerSignalsDone [false] = false
    ∧ copyWorkerCopyCalls [false, false, true] = 3
    ∧ copyWorkerSignalsDone [false, false, true] = true := by
  refine ⟨rfl, rfl, rfl⟩

/-- Claim C10: `NewServer` returns a non-nil error exactly when the
factory argument is nil; in every case it returns a server whose
director, config and factory fields equal the given arguments and whose
sig set is initialized, non-nil and empty. -/
theorem c10_newserver_fields {α β γ : Type} (dir : Option α)
    (factory : Option γ) (config : Option β) :
    (newServer dir factory config).2.isSome = factory.isNone
    ∧ (newServer dir factory config).1.director = dir
    ∧ (newServer dir factory config).1.config = config
    ∧ (newServer dir factory config).1.backendFactory = factory
    ∧ (newServer dir factory config).1.sigs = some [] := by
  refine ⟨?_, rfl, rfl, rfl, rfl⟩
  cases factory <;> rfl

end Vncd
